import Mathlib

/-!
# Verification of the Syllablaze audio capture pipeline

Shallow embedding of `blaze/recorder.py` (class `AudioRecorder`): the
recording callback, the start/stop state machine and the finalization
(`_process_recording`) that resamples and normalizes the captured int16
audio into the float waveform handed to the transcriber.

Conventions of the embedding:
* int16 samples are `Int` values (the byte decoding guarantees the range
  −32768 … 32767); numpy's wrapping int16 arithmetic is made explicit with
  `wrap16`;
* Python float arithmetic is modelled by exact rational arithmetic `ℚ`;
  where a claim needs a square root the statement uses `Real.sqrt` on the
  rational value;
* raw `in_data` byte buffers are `List Nat` (each entry a byte), decoded by
  `frombuffer16` exactly as `np.frombuffer(_, dtype=np.int16)` does,
  including its `ValueError` on odd-length buffers (`none`);
* Qt signal emissions are collected as explicit `Emit` values.
-/

namespace Blaze

/-- Modelled from the spec: the constant `WHISPER_SAMPLE_RATE` is imported
by `recorder.py` from `blaze.constants`, but the copy of `constants.py`
under `src/` does not define it; the spec fixes the target rate at 16 kHz
("the fixed sample rate (16 kHz) required by the downstream transcription
consumer"). -/
def WHISPER_SAMPLE_RATE : Nat := 16000

/-- `output_length = int(len(audio_data) * ratio)` with
`ratio = WHISPER_SAMPLE_RATE / original_rate` (recorder.py lines 289-290),
modelled in exact arithmetic: for a nonnegative value Python's `int`
truncates, i.e. takes the floor, which is `Nat` division here.  (The
source computes the ratio in binary floating point; its relative error is
far below one sample for any realistic length, and the ±1 tolerance of the
spec absorbs the boundary cases.) -/
def outputLength (n rate : Nat) : Nat := n * WHISPER_SAMPLE_RATE / rate

/-- `_process_recording` (recorder.py lines 267-301), starting from the
decoded int16 samples: if the capture rate differs from
`WHISPER_SAMPLE_RATE` the data is resampled to `outputLength` samples by
`scipy.signal.resample`; then `audio_data.astype(np.float32) / 32768.0`
divides every sample by 32768.  The scipy resampler is an external
library function, so `processRecording` is parametrised by it; the claims
that depend on it either use only its documented length contract
(`∀ xs m, (resample xs m).length = m`) or instantiate it with the exact
FFT model `scipyResample4to2` below.  No clamping of any kind occurs in
the source. -/
def processRecording (resample : List Int → Nat → List ℚ)
    (samples : List Int) (rate : Nat) : List ℚ :=
  let audio : List ℚ :=
    if rate ≠ WHISPER_SAMPLE_RATE then
      resample samples (outputLength samples.length rate)
    else
      samples.map (fun x => (x : ℚ))
  audio.map (fun x => x / 32768)

/-- Round-half-up of the ratio `a / b` on naturals; stands for the
`round(len(samples) * targetRate / sourceRate)` of the spec.  Any
nearest-integer rounding (half-up, half-down, half-even) of `a / b` lies
between the floor and the ceiling of `a / b`, so the ±1 bounds proved
below hold for every tie-breaking convention. -/
def roundHalfUp (a b : Nat) : Nat := (2 * a + b) / (2 * b)

/-! ## Byte decoding: `np.frombuffer(in_data, dtype=np.int16)` -/

/-- Two's-complement interpretation of a 16-bit little-endian pair of
bytes as a signed int16 value. -/
def int16OfBytes (lo hi : Nat) : Int :=
  let v : Nat := lo + 256 * hi
  if v < 32768 then (v : Int) else (v : Int) - 65536

/-- `np.frombuffer(in_data, dtype=np.int16)`: decodes a raw byte buffer
into int16 samples (little endian); raises `ValueError` — here `none` —
when the buffer length is not a multiple of the 2-byte element size. -/
def frombuffer16 : List Nat → Option (List Int)
  | [] => some []
  | lo :: hi :: rest => (frombuffer16 rest).map (fun xs => int16OfBytes lo hi :: xs)
  | [_] => none

/-! ## The volume computation of `_callback` (recorder.py lines 218-229)

numpy keeps the `int16` dtype through `np.abs` and `** 2`, so both the
absolute value and the squaring wrap modulo 2^16 — this is the source's
actual arithmetic, not an approximation. -/

/-- Wrap an integer into the signed 16-bit range, as numpy int16
arithmetic does on overflow. -/
def wrap16 (v : Int) : Int := (v + 32768) % 65536 - 32768

/-- `np.abs` on an int16 value: the absolute value computed in int16,
so `np.abs(-32768) = -32768`. -/
def npAbs16 (x : Int) : Int := wrap16 |x|

/-- One element of `np.abs(audio_data)**2` for int16 `audio_data`: the
square of the int16 absolute value, wrapped back into int16. -/
def npSq16 (x : Int) : Int := wrap16 (npAbs16 x * npAbs16 x)

/-- The `mean_squared` value computed by `_callback` for a decoded block
(0 for the degenerate branches): `squared = np.abs(audio_data)**2`;
`mean_squared = np.mean(squared) if np.any(squared) else 0`; an empty
block never reaches this code (`volume = 0.0` directly), and `0` here
yields volume 0 through `rms = sqrt(mean_squared) if mean_squared > 0
else 0`, matching that branch.  The emitted volume is
`min 1 (max 0 (rms / 32768))` with `rms = Real.sqrt` of this value when
it is positive and `0` otherwise; the claims state that part inline. -/
def codeMeanSquared (xs : List Int) : ℚ :=
  if xs = [] then 0
  else
    let squared := xs.map npSq16
    if squared.all (fun q => q = 0) then 0
    else ((squared.sum : ℚ)) / (xs.length : ℚ)

/-- The mean of the true squared magnitudes of the block, following the
spec's words ("RMS of the block's absolute sample magnitudes divided by
32768.0"): the spec-side counterpart of `codeMeanSquared`, used to compare
the code's volume against the claimed one. -/
def specMeanSquared (xs : List Int) : ℚ :=
  if xs = [] then 0
  else (((xs.map (fun x => |x| * |x|)).sum : ℤ) : ℚ) / (xs.length : ℚ)

/-! ## Exact model of `scipy.signal.resample` on length-4 real input

`signal.resample(x, num)` for real input `x` of length `Nx` computes
`X = rfft(x)`, allocates `Y = zeros(num//2 + 1)`, copies the bins below
the smaller Nyquist (`N = min(num, Nx)`, `nyq = N//2 + 1`,
`Y[:nyq] = X[:nyq]`), doubles the retained Nyquist bin when downsampling
real input to an even length (`Y[N//2] *= 2`), inverse-transforms with
`irfft(Y, num)` and finally scales by `num / Nx`.  For `Nx = 4` every
twiddle factor of the DFT is a power of `-i`, a Gaussian integer, so the
whole computation is exact over `ℚ` (complex values carried as
real/imaginary pairs `ℚ × ℚ`); `_process_recording` performs it in
float64, whose error on these 17-bit integers is far too small to move a
value across the `±1.0` boundary by the margin exhibited in claim C2. -/

/-- Componentwise sum of complex numbers carried as (re, im) pairs. -/
def cAdd (a b : ℚ × ℚ) : ℚ × ℚ := (a.1 + b.1, a.2 + b.2)

/-- Real scalar multiple of a complex (re, im) pair. -/
def cSMul (r : ℚ) (a : ℚ × ℚ) : ℚ × ℚ := (r * a.1, r * a.2)

/-- The 4-point DFT twiddle factor `exp(-2*pi*i*j/4) = (-i)^j`, a
Gaussian integer for every `j`. -/
def twiddle4 (j : Nat) : ℚ × ℚ :=
  match j % 4 with
  | 0 => (1, 0)
  | 1 => (0, -1)
  | 2 => (-1, 0)
  | _ => (0, 1)

/-- Bin `k` of the 4-point real FFT,
`X_k = x_0 + x_1 w^k + x_2 w^(2k) + x_3 w^(3k)` with `w = exp(-2*pi*i/4)`
(the defining DFT sum; `0` for a list that is not of length 4). -/
def rfft4 (x : List ℚ) (k : Nat) : ℚ × ℚ :=
  match x with
  | [x0, x1, x2, x3] =>
    cAdd (cAdd (cSMul x0 (twiddle4 0)) (cSMul x1 (twiddle4 k)))
         (cAdd (cSMul x2 (twiddle4 (2 * k))) (cSMul x3 (twiddle4 (3 * k))))
  | _ => (0, 0)

/-- The 2-point inverse real FFT `irfft([c0, c1], 2)`:
`y_n = (Re c0 + Re c1 * (-1)^n) / 2`.  Bin 0 is the DC bin and bin 1 the
Nyquist bin; the inverse real transform reads only their real parts (their
imaginary parts are discarded, as in numpy/scipy's pocketfft backend). -/
def irfft2 (c0 c1 : ℚ × ℚ) : List ℚ :=
  [(c0.1 + c1.1) / 2, (c0.1 - c1.1) / 2]

/-- `scipy.signal.resample(x, 2)` for real `x` of length `Nx = 4`,
following scipy's algorithm step by step: `X = rfft(x)`;
`N = min(2, 4) = 2`, `nyq = 2`, so `Y[0] = X[0]` and `Y[1] = X[1]`;
`N` is even and `num = 2 < 4 = Nx` with real input, so the new Nyquist
bin is doubled, `Y[1] *= 2`; then `y = irfft(Y, 2) * (2 / 4)`. -/
def scipyResample4to2 (x : List ℚ) : List ℚ :=
  let X0 := rfft4 x 0
  let X1 := rfft4 x 1
  let Y0 := X0
  let Y1 := cSMul 2 X1
  (irfft2 Y0 Y1).map (fun v => (2 / 4 : ℚ) * v)

/-- `scipy.signal.resample` as `_process_recording` calls it, on the
domain the claims evaluate: on any length-4 int16 input downsampled to 2
samples it is the exact FFT model `scipyResample4to2`; on shapes outside
the modelled domain (never reached by the theorems below) it returns a
zero block of the requested length, so scipy's documented length
contract `(resample xs m).length = m` holds everywhere. -/
def scipyResampleModel (xs : List Int) (m : Nat) : List ℚ :=
  match xs, m with
  | [x0, x1, x2, x3], 2 =>
    scipyResample4to2 [(x0 : ℚ), (x1 : ℚ), (x2 : ℚ), (x3 : ℚ)]
  | _, m => List.replicate m 0

/-! ## Recorder state and signal emissions -/

/-- Snapshot of a PyAudio device info dict as used by `recorder.py`:
`device_info['index']` and `device_info['defaultSampleRate']` (the name is
only logged). -/
structure DeviceInfo where
  index : Int
  defaultSampleRate : Nat
deriving DecidableEq

/-- The mutable fields of `AudioRecorder` that the claims touch:
`self.frames` (raw byte blocks appended by the callback),
`self.is_recording`, whether `self.stream` is a live stream object, the
`self.current_sample_rate` attribute (`none` models both the unset
attribute and `None`), and `self.current_device_info`. -/
structure RecState where
  frames : List (List Nat)
  is_recording : Bool
  streamOpen : Bool
  current_sample_rate : Option Nat
  current_device_info : Option DeviceInfo
deriving DecidableEq

/-- Qt signal emissions of `AudioRecorder` relevant to the claims.
`recording_finished` carries the processed waveform. -/
inductive Emit where
  | recordingError (msg : String)
  | recordingFinished (waveform : List ℚ)
deriving DecidableEq

/-- The pair returned by a PyAudio stream callback:
`pyaudio.paContinue` or `pyaudio.paComplete` (the unchanged `in_data`
component is left implicit). -/
inductive PaSignal where
  | paContinue
  | paComplete
deriving DecidableEq

/-- What `_callback` emits on `volume_updated`: either the volume computed
from the decoded block by lines 219-229 (`computed xs`, whose value is
`min 1 (max 0 (rms/32768))` with `rms` the guarded square root of
`codeMeanSquared xs`), or the literal `0.0` of the `except` branch
(line 232). -/
inductive VolEmit where
  | computed (samples : List Int)
  | zero
deriving DecidableEq

/-- The `mean_squared` value behind a `volume_updated` emission; the
emitted float is `min 1 (max 0 (rms / 32768))` where `rms` is
`Real.sqrt` of this value if it is positive and `0` otherwise (for
`VolEmit.zero` the emitted float is the literal `0.0`, which the same
formula yields). -/
def emitMeanSquared : VolEmit → ℚ
  | .computed xs => codeMeanSquared xs
  | .zero => 0

/-- `_callback` (recorder.py lines 211-238).  When `self.is_recording` is
set the block is appended to `self.frames`, a volume is emitted (the
`try/except Exception` around the volume computation turns any failure —
in practice `np.frombuffer` rejecting an odd-length buffer — into an
emission of `0.0`), and `(in_data, pyaudio.paContinue)` is returned.
When the flag is clear the `if` body is skipped entirely: no state is
mutated, nothing is emitted, and line 238 returns
`(in_data, pyaudio.paComplete)`.  (The outer `except RuntimeError` guards
Qt object teardown, which has no counterpart in this embedding; signal
emission itself is modelled as non-failing.) -/
def callback (s : RecState) (in_data : List Nat) :
    RecState × PaSignal × Option VolEmit :=
  if s.is_recording then
    ({ s with frames := s.frames ++ [in_data] },
     PaSignal.paContinue,
     some (match frombuffer16 in_data with
           | some xs => VolEmit.computed xs
           | none => VolEmit.zero))
  else
    (s, PaSignal.paComplete, none)

/-! ## Settings and device negotiation for `start_recording` -/

/-- A value stored under `mic_index` in the settings: an int, a string, or
some other object (for which Python's `int()` raises `TypeError`). -/
inductive PyVal where
  | pyInt (n : Int)
  | pyStr (s : String)
  | pyOther
deriving DecidableEq

/-- Digits-only parse helper for `pyToInt`. -/
def digitsToNat : List Char → Option Nat
  | [] => none
  | cs =>
    if cs.all Char.isDigit then
      some (cs.foldl (fun acc c => 10 * acc + (c.toNat - 48)) 0)
    else none

/-- Python's `int(str)` on a trimmed decimal literal: an optional sign
followed by at least one digit; anything else raises `ValueError`.
(Surrounding whitespace and underscore separators, which CPython also
accepts, never arise in the settings store and are omitted.) -/
def parsePyInt (s : String) : Option Int :=
  match s.toList with
  | '-' :: rest => (digitsToNat rest).map (fun n => -(n : Int))
  | '+' :: rest => (digitsToNat rest).map (fun n => (n : Int))
  | cs => (digitsToNat cs).map (fun n => (n : Int))

/-- `int(mic_index)` as performed at recorder.py lines 129-132: succeeds
on ints and integer strings, raises (`none`) otherwise; the surrounding
`try/except (ValueError, TypeError)` maps `none` to `mic_index = None`. -/
def pyToInt : PyVal → Option Int
  | .pyInt n => some n
  | .pyStr s => parsePyInt s
  | .pyOther => none

/-- The two values of the `sample_rate_mode` setting:
`SAMPLE_RATE_MODE_WHISPER` and `SAMPLE_RATE_MODE_DEVICE`. -/
inductive SampleRateMode where
  | whisper
  | device
deriving DecidableEq

/-- The settings consulted by `start_recording`: `settings.get('mic_index')`
(`none` when absent) and `settings.get('sample_rate_mode', ...)`. -/
structure RecSettings where
  micIndex : Option PyVal
  mode : SampleRateMode
deriving DecidableEq

/-- The audio subsystem as `start_recording` sees it:
`get_device_info_by_index` (raising — `none` — for unknown indices),
`get_default_input_device_info` (modelled as always present), and whether
`self.audio.open` succeeds at a given rate. -/
structure AudioEnv where
  getDevice : Int → Option DeviceInfo
  defaultDevice : DeviceInfo
  openOk : Nat → Bool

/-- The stream-opening half of `start_recording` (recorder.py lines
143-204), after a device has been selected: the device info is stored; in
Whisper mode the stream is first opened at `WHISPER_SAMPLE_RATE`, falling
back to the device's default rate when that fails; in device mode the
default rate is used directly.  A failure of the final open propagates to
the outer `except`, which emits `recording_error` and clears
`is_recording`. -/
def openPhase (env : AudioEnv) (mode : SampleRateMode) (s0 : RecState)
    (dev : DeviceInfo) : RecState × List Emit :=
  let s1 := { s0 with current_device_info := some dev }
  match mode with
  | .whisper =>
    if env.openOk WHISPER_SAMPLE_RATE then
      ({ s1 with streamOpen := true,
                 current_sample_rate := some WHISPER_SAMPLE_RATE }, [])
    else if env.openOk dev.defaultSampleRate then
      ({ s1 with streamOpen := true,
                 current_sample_rate := some dev.defaultSampleRate }, [])
    else
      ({ s1 with is_recording := false },
       [Emit.recordingError "Failed to start recording"])
  | .device =>
    if env.openOk dev.defaultSampleRate then
      ({ s1 with streamOpen := true,
                 current_sample_rate := some dev.defaultSampleRate }, [])
    else
      ({ s1 with is_recording := false },
       [Emit.recordingError "Failed to start recording"])

/-- `start_recording` (recorder.py lines 116-209).  A call while
`self.is_recording` is already set returns immediately (line 117-118): no
state change, no emission.  Otherwise the frame buffer is cleared, the
flag is set, `mic_index` is read and coerced with
`int(...)`/`except: mic_index = None`; a parseable index is looked up with
`get_device_info_by_index` (an unknown index raises into the outer
`except`, emitting `recording_error` and clearing the flag), an absent or
unparseable one selects the default input device; then the stream is
opened per `openPhase`. -/
def startRecording (env : AudioEnv) (cfg : RecSettings) (s : RecState) :
    RecState × List Emit :=
  if s.is_recording then (s, [])
  else
    let s0 := { s with frames := ([] : List (List Nat)), is_recording := true }
    match cfg.micIndex.bind pyToInt with
    | some i =>
      match env.getDevice i with
      | some dev => openPhase env cfg.mode s0 dev
      | none =>
        ({ s0 with is_recording := false },
         [Emit.recordingError "Failed to start recording"])
    | none => openPhase env cfg.mode s0 env.defaultDevice

/-! ## `stop_recording` and finalization -/

/-- The `original_rate` determination of `_process_recording` (recorder.py
lines 274-283): `self.current_sample_rate` when set, otherwise the stored
device info's default rate, otherwise the system default input device's
default rate. -/
def effectiveRate (env : AudioEnv) (s : RecState) : Nat :=
  match s.current_sample_rate with
  | some r => r
  | none =>
    match s.current_device_info with
    | some d => d.defaultSampleRate
    | none => env.defaultDevice.defaultSampleRate

/-- `stop_recording` (recorder.py lines 240-265) followed by
`_process_recording`.  A call while not recording returns immediately
(lines 241-242).  Otherwise the flag is cleared and the stream closed;
with no recorded frames, `recording_error("No audio was recorded")` is
emitted and processing is skipped (lines 254-258, claim C5's path);
otherwise the joined bytes are decoded (`np.frombuffer`; a failure lands
in the `except` of `_process_recording`, emitting
`recording_error("Failed to process recording")`) and the processed
waveform is emitted on `recording_finished`. -/
def stopRecording (env : AudioEnv) (resample : List Int → Nat → List ℚ)
    (s : RecState) : RecState × List Emit :=
  if !s.is_recording then (s, [])
  else
    let s1 := { s with is_recording := false, streamOpen := false }
    if s1.frames = [] then
      (s1, [Emit.recordingError "No audio was recorded"])
    else
      match frombuffer16 s1.frames.flatten with
      | none => (s1, [Emit.recordingError "Failed to process recording"])
      | some samples =>
        (s1, [Emit.recordingFinished
                (processRecording resample samples (effectiveRate env s1))])

/-! ## Concrete fixtures used by the witness theorems -/

/-- A resample stand-in satisfying scipy's length contract, for witnesses
that never inspect the resampled values. -/
def zeroResample : List Int → Nat → List ℚ := fun _ m => List.replicate m 0

/-- A concrete audio environment: no indexed devices, a default input
device with index 0 and default rate 44100 Hz, every open succeeding. -/
def env0 : AudioEnv :=
  { getDevice := fun _ => none
    defaultDevice := { index := 0, defaultSampleRate := 44100 }
    openOk := fun _ => true }

/-- A recorder that is idle (fresh instance after `__init__`). -/
def idleState : RecState :=
  { frames := [], is_recording := false, streamOpen := false,
    current_sample_rate := none, current_device_info := none }

/-- A recorder that is recording at 16 kHz but has received no callback
yet: the frame buffer is still empty. -/
def activeEmptyState : RecState :=
  { frames := [], is_recording := true, streamOpen := true,
    current_sample_rate := some 16000, current_device_info := none }

/-- A recorder that is recording at 16 kHz and has captured two silent
2-byte blocks. -/
def activeState : RecState :=
  { frames := [[0, 0], [0, 0]], is_recording := true, streamOpen := true,
    current_sample_rate := some 16000, current_device_info := none }

/-- A recorder that is recording at 32000 Hz and has captured the int16
samples 32767, 32767, -32768, 32767 as two little-endian 4-byte blocks:
the state on which claim C2's finalization is evaluated. -/
def loudState32k : RecState :=
  { frames := [[255, 127, 255, 127], [0, 128, 255, 127]],
    is_recording := true, streamOpen := true,
    current_sample_rate := some 32000, current_device_info := none }

/-! ## Helper lemmas -/

lemma roundHalfUp_eq (a b : Nat) (hb : 0 < b) :
    roundHalfUp a b = a / b + (2 * (a % b) + b) / (2 * b) := by
  unfold roundHalfUp
  conv_lhs => rw [show 2 * a + b = (2 * (a % b) + b) + (2 * b) * (a / b) by
    have := Nat.div_add_mod a b
    ring_nf
    omega]
  rw [Nat.add_mul_div_left _ _ (by omega : 0 < 2 * b)]
  exact Nat.add_comm _ _

/-- Any nearest-integer rounding of `a / b` is the floor or the floor plus
one; `roundHalfUp` in particular. -/
lemma roundHalfUp_bounds (a b : Nat) (hb : 0 < b) :
    a / b ≤ roundHalfUp a b ∧ roundHalfUp a b ≤ a / b + 1 := by
  rw [roundHalfUp_eq a b hb]
  have hmod : a % b < b := Nat.mod_lt _ hb
  have hlt : (2 * (a % b) + b) / (2 * b) < 2 := by
    apply Nat.div_lt_of_lt_mul
    omega
  generalize (2 * (a % b) + b) / (2 * b) = t at hlt
  omega

/-- `scipyResampleModel` satisfies scipy's length contract everywhere. -/
lemma scipyResampleModel_length (xs : List Int) (m : Nat) :
    (scipyResampleModel xs m).length = m := by
  unfold scipyResampleModel
  split
  · simp [scipyResample4to2, irfft2]
  · simp

/-- Sanity check of the FFT resample model: downsampling a constant
signal returns the constant (the DC bin is preserved and correctly
rescaled), as band-limited resampling must. -/
lemma scipyResample4to2_const (c : ℚ) :
    scipyResample4to2 [c, c, c, c] = [c, c] := by
  simp [scipyResample4to2, rfft4, irfft2, twiddle4, cAdd, cSMul]
  ring

/-- When the int16 square cannot overflow (|x| ≤ 181, so |x|² ≤ 32761 <
2^15), numpy's wrapped square is the exact square. -/
lemma npSq16_no_overflow (x : Int) (h : |x| ≤ 181) :
    npSq16 x = |x| * |x| := by
  have h0 : 0 ≤ |x| := abs_nonneg x
  have hsq : |x| * |x| ≤ 181 * 181 := mul_le_mul h h h0 (by norm_num)
  have hsq0 : 0 ≤ |x| * |x| := mul_nonneg h0 h0
  unfold npSq16 npAbs16 wrap16
  have e1 : (|x| + 32768) % 65536 = |x| + 32768 :=
    Int.emod_eq_of_lt (by omega) (by omega)
  rw [e1]
  have e2 : |x| + 32768 - 32768 = |x| := by ring
  rw [e2]
  have e3 : (|x| * |x| + 32768) % 65536 = |x| * |x| + 32768 :=
    Int.emod_eq_of_lt (by omega) (by omega)
  rw [e3]
  ring

/-- In the no-overflow regime the code's mean-square agrees with the
spec's: the volume emitted by `_callback` is exactly the claimed clamped
RMS for every block whose samples stay small; the divergence exhibited in
claim C4 is precisely the int16 overflow of the squaring. -/
lemma codeMeanSquared_eq_spec_of_no_overflow (xs : List Int)
    (h : ∀ x ∈ xs, |x| ≤ 181) :
    codeMeanSquared xs = specMeanSquared xs := by
  unfold codeMeanSquared specMeanSquared
  by_cases hnil : xs = []
  · simp [hnil]
  · have hmap : xs.map npSq16 = xs.map (fun x => |x| * |x|) :=
      List.map_congr_left (fun x hx => npSq16_no_overflow x (h x hx))
    simp only [hnil, if_false, hmap]
    by_cases hall : ((xs.map (fun x => |x| * |x|)).all (fun q => q = 0)) = true
    · have hz : ((xs.map (fun x => |x| * |x|)).sum : Int) = 0 := by
        apply List.sum_eq_zero
        intro y hy
        have := List.all_eq_true.mp hall y hy
        simpa using this
      rw [if_pos hall, hz]
      simp
    · rw [if_neg hall]

/-- `stop_recording` on an inactive recorder returns immediately. -/
lemma stopRecording_inactive (env : AudioEnv)
    (resample : List Int → Nat → List ℚ) (s : RecState)
    (h : s.is_recording = false) :
    stopRecording env resample s = (s, []) := by
  simp [stopRecording, h]

/-- Every path through `stop_recording` leaves `is_recording` cleared. -/
lemma stopRecording_clears_flag (env : AudioEnv)
    (resample : List Int → Nat → List ℚ) (s : RecState) :
    (stopRecording env resample s).1.is_recording = false := by
  by_cases h : s.is_recording <;> simp [stopRecording, h]
  split <;> (try split) <;> simp

/-! ## Claims -/

/-- C1: for every recording finalized with a capture sample rate different
from 16000 Hz, the length of the produced waveform equals
`round(totalCapturedSamples * 16000 / captureRate)` to within ±1 sample.
`resample` is quantified over every function obeying scipy's documented
length contract; the source's `int(len * ratio)` is the floor of the exact
ratio, and any nearest-integer rounding is at most one above that floor. -/
theorem C1_finalize_length_within_one_of_round
    (resample : List Int → Nat → List ℚ)
    (hres : ∀ xs m, (resample xs m).length = m)
    (samples : List Int) (rate : Nat) (hpos : 0 < rate)
    (hne : rate ≠ WHISPER_SAMPLE_RATE) :
    |((processRecording resample samples rate).length : ℤ) -
      (roundHalfUp (samples.length * WHISPER_SAMPLE_RATE) rate : ℤ)| ≤ 1 := by
  have hlen : (processRecording resample samples rate).length
      = samples.length * WHISPER_SAMPLE_RATE / rate := by
    simp [processRecording, hne, hres, outputLength]
  rw [hlen]
  obtain ⟨h1, h2⟩ :=
    roundHalfUp_bounds (samples.length * WHISPER_SAMPLE_RATE) rate hpos
  rw [abs_le]
  omega

theorem C1_witness :
    0 < 44100 ∧ 44100 ≠ WHISPER_SAMPLE_RATE ∧
    |((processRecording zeroResample [1, 2, 3] 44100).length : ℤ) -
      (roundHalfUp (([1, 2, 3] : List Int).length * WHISPER_SAMPLE_RATE)
        44100 : ℤ)| ≤ 1 :=
  ⟨by decide, by decide,
   C1_finalize_length_within_one_of_round zeroResample
     (fun xs m => by simp [zeroResample]) [1, 2, 3] 44100
     (by decide) (by decide)⟩

/-- C2: claimed by the spec — every finalized waveform sample lies in
[-1.0, 1.0], output values being clamped after normalization.  The code
has no clamping step at all: `_process_recording` resamples and then only
divides by 32768.  FFT resampling overshoots the input range, so the
claim fails.  On the session `loudState32k` (capture rate 32000 Hz, int16
samples 32767, 32767, -32768, 32767) the whole stop path — decode the
joined frames, resample 4 → 2 by the exact scipy FFT model, divide by
32768 — emits a waveform whose first sample is
`196603/131072 ≈ 1.49996 > 1`.  The code contradicts its own comment
("Normalize the audio data to float32 in the range [-1.0, 1.0] as
expected by Whisper"), so this is recorded as a code bug: the missing
clamp. -/
theorem C2_waveform_exceeds_one_without_clamp :
    outputLength 4 32000 = 2 ∧
    processRecording scipyResampleModel [32767, 32767, -32768, 32767] 32000
      = [196603 / 131072, -65537 / 131072] ∧
    stopRecording env0 scipyResampleModel loudState32k
      = ({ loudState32k with is_recording := false, streamOpen := false },
         [Emit.recordingFinished [196603 / 131072, -65537 / 131072]]) ∧
    (1 : ℚ) < 196603 / 131072 := by
  have hp : processRecording scipyResampleModel [32767, 32767, -32768, 32767]
      32000 = [196603 / 131072, -65537 / 131072] := by
    norm_num [processRecording, scipyResampleModel, scipyResample4to2,
      rfft4, irfft2, twiddle4, cAdd, cSMul, outputLength, WHISPER_SAMPLE_RATE]
  have hb : frombuffer16 [255, 127, 255, 127, 0, 128, 255, 127]
      = some [32767, 32767, -32768, 32767] := by decide
  refine ⟨by decide, hp, ?_, by norm_num⟩
  simp [stopRecording, loudState32k, hb, effectiveRate, hp]

/-- C3: when the capture rate already equals 16000 Hz, finalization
performs no resampling: the produced waveform is exactly the int16 input
converted sample-by-sample to `input[i] / 32768.0` (this division of an
int16 value by the power of two 32768 is even exact in float32), so in
particular the lengths agree and sample `i` is `input[i] / 32768`. -/
theorem C3_no_resample_at_target_rate
    (resample : List Int → Nat → List ℚ) (samples : List Int) :
    processRecording resample samples WHISPER_SAMPLE_RATE
      = samples.map (fun x => (x : ℚ) / 32768) := by
  simp [processRecording]

/-- C4: claimed by the spec — the emitted volume equals the RMS of the
block's absolute int16 magnitudes divided by 32768, clamped to [0, 1].
The code squares `np.abs(audio_data)` while the array still has dtype
int16 (numpy keeps the array dtype under `np.abs` and under `**` with a
Python int exponent), so the squares wrap modulo 2^16 — visibly so in the
source itself, whose guard `if mean_squared > 0` and comment "protection
against zero/negative values" exist only because wrapped squares can make
the mean negative.  Delivering the block of four int16 samples 32767 (raw
bytes FF 7F × 4) to `_callback` appends it, returns `paContinue` and
emits the volume computed from the decoded samples; its `mean_squared` is
1 (since 32767² ≡ 1 mod 2^16), so the emitted value
`min(1, max(0, sqrt(mean_squared)/32768))` — with the source's positivity
guard — is `1/32768 ≈ 0.00003`, whereas the claimed RMS-based volume is
`32767/32768 ≈ 0.99997`.  (Lemma `codeMeanSquared_eq_spec_of_no_overflow`
shows the two agree whenever no square overflows: the divergence is
exactly the int16 overflow.)  The code contradicts its own comment
("Calculate RMS..."), so this is recorded as a code bug. -/
theorem C4_volume_int16_overflow :
    frombuffer16 [255, 127, 255, 127, 255, 127, 255, 127]
      = some [32767, 32767, 32767, 32767] ∧
    callback activeState [255, 127, 255, 127, 255, 127, 255, 127]
      = ({ activeState with
            frames := activeState.frames
              ++ [[255, 127, 255, 127, 255, 127, 255, 127]] },
         PaSignal.paContinue,
         some (VolEmit.computed [32767, 32767, 32767, 32767])) ∧
    emitMeanSquared (VolEmit.computed [32767, 32767, 32767, 32767]) = 1 ∧
    specMeanSquared [32767, 32767, 32767, 32767] = 32767 * 32767 ∧
    min 1 (max 0
      ((if (0 : ℚ) < emitMeanSquared (VolEmit.computed [32767, 32767, 32767, 32767])
        then Real.sqrt
          ((emitMeanSquared (VolEmit.computed [32767, 32767, 32767, 32767]) : ℚ) : ℝ)
        else 0) / 32768)) = 1 / 32768 ∧
    min 1 (max 0 (Real.sqrt
        ((specMeanSquared [32767, 32767, 32767, 32767] : ℚ) : ℝ) / 32768))
      = 32767 / 32768 ∧
    (1 / 32768 : ℝ) ≠ 32767 / 32768 := by
  have hcode : emitMeanSquared (VolEmit.computed [32767, 32767, 32767, 32767])
      = 1 := by
    norm_num [emitMeanSquared, codeMeanSquared, npSq16, npAbs16, wrap16]
    decide
  have hspec : specMeanSquared [32767, 32767, 32767, 32767]
      = 32767 * 32767 := by
    norm_num [specMeanSquared]
    decide
  refine ⟨by decide, by decide, hcode, hspec, ?_, ?_, by norm_num⟩
  · rw [hcode, if_pos (by norm_num : (0 : ℚ) < 1)]
    norm_num
  · rw [hspec]
    have h1 : (((32767 * 32767 : ℚ)) : ℝ) = (32767 : ℝ) ^ 2 := by norm_num
    rw [h1, Real.sqrt_sq (by norm_num : (0 : ℝ) ≤ 32767)]
    rw [max_eq_right (by norm_num), min_eq_right (by norm_num)]

/-- C5: stopping a recording with zero appended blocks clears the flag,
closes the stream, emits exactly the `recording_error` for an empty
recording and nothing else — in particular no `recording_finished`
waveform — and returns without retrying (`_process_recording` is never
reached). -/
theorem C5_empty_recording_surfaces_error (env : AudioEnv)
    (resample : List Int → Nat → List ℚ) (s : RecState)
    (hrec : s.is_recording = true) (hempty : s.frames = []) :
    stopRecording env resample s
      = ({ s with is_recording := false, streamOpen := false },
         [Emit.recordingError "No audio was recorded"]) := by
  simp [stopRecording, hrec, hempty]

theorem C5_witness :
    activeEmptyState.is_recording = true ∧ activeEmptyState.frames = [] ∧
    stopRecording env0 zeroResample activeEmptyState
      = ({ activeEmptyState with is_recording := false, streamOpen := false },
         [Emit.recordingError "No audio was recorded"]) :=
  ⟨rfl, rfl,
   C5_empty_recording_surfaces_error env0 zeroResample activeEmptyState rfl rfl⟩

/-- C6 counterexample: the claim says a second finalize call on an
already-finalized session "fails with an AlreadyFinalized error".  On the
concrete session `activeState` the first `stop_recording` finalizes it
(clearing `is_recording`); the second call returns with the state
untouched and an empty emission list — no error of any kind is raised, so
the claim as stated is false (the source has no `AlreadyFinalized` error
at all). -/
theorem C6_counterexample_second_stop_emits_nothing :
    (stopRecording env0 zeroResample activeState).1.is_recording = false ∧
    stopRecording env0 zeroResample
        (stopRecording env0 zeroResample activeState).1
      = ((stopRecording env0 zeroResample activeState).1, []) := by
  constructor
  · exact stopRecording_clears_flag env0 zeroResample activeState
  · exact stopRecording_inactive env0 zeroResample _
      (stopRecording_clears_flag env0 zeroResample activeState)

/-- C6 amended: finalization is one-shot, but a second `stop_recording`
on a finalized session is a silent no-op rather than an error: after any
stop the flag is cleared, and a further stop returns the state unchanged
with no emission (recorder.py lines 241-242). -/
theorem C6_second_stop_is_noop (env : AudioEnv)
    (resample : List Int → Nat → List ℚ) (s : RecState) :
    (stopRecording env resample s).1.is_recording = false ∧
    stopRecording env resample (stopRecording env resample s).1
      = ((stopRecording env resample s).1, []) :=
  ⟨stopRecording_clears_flag env resample s,
   stopRecording_inactive env resample _
     (stopRecording_clears_flag env resample s)⟩

/-- C7: once `is_recording` is false, a firing callback mutates no state
— the frame buffer and every other field are untouched — emits nothing,
and returns the `paComplete` stop signal to the audio subsystem. -/
theorem C7_callback_after_stop_mutates_nothing (s : RecState)
    (in_data : List Nat) (h : s.is_recording = false) :
    callback s in_data = (s, PaSignal.paComplete, none) := by
  simp [callback, h]

theorem C7_witness :
    idleState.is_recording = false ∧
    callback idleState [0, 0] = (idleState, PaSignal.paComplete, none) :=
  ⟨rfl, C7_callback_after_stop_mutates_nothing idleState [0, 0] rfl⟩

/-- C8: re-entrant requests are no-ops: `stop_recording` while not
recording returns immediately with no transition and no emission, and
`start_recording` while already recording returns immediately, leaving
the single active session (state included) untouched. -/
theorem C8_reentrant_requests_are_noops (env : AudioEnv)
    (resample : List Int → Nat → List ℚ) (cfg : RecSettings)
    (sIdle sRec : RecState) (h1 : sIdle.is_recording = false)
    (h2 : sRec.is_recording = true) :
    stopRecording env resample sIdle = (sIdle, []) ∧
    startRecording env cfg sRec = (sRec, []) := by
  refine ⟨stopRecording_inactive env resample sIdle h1, ?_⟩
  simp [startRecording, h2]

theorem C8_witness :
    idleState.is_recording = false ∧ activeState.is_recording = true ∧
    stopRecording env0 zeroResample idleState = (idleState, []) ∧
    startRecording env0 { micIndex := none, mode := SampleRateMode.whisper }
        activeState = (activeState, []) :=
  ⟨rfl, rfl,
   (C8_reentrant_requests_are_noops env0 zeroResample
      { micIndex := none, mode := SampleRateMode.whisper }
      idleState activeState rfl rfl).1,
   (C8_reentrant_requests_are_noops env0 zeroResample
      { micIndex := none, mode := SampleRateMode.whisper }
      idleState activeState rfl rfl).2⟩

/-- C9: a stored `mic_index` that `int()` cannot parse is treated exactly
as an absent one: `start_recording` behaves identically to a run with no
stored index — in particular it selects the system default input device
and emits nothing beyond what that run emits (no error, no surfaced
substitution). -/
theorem C9_unparseable_mic_index_uses_default (env : AudioEnv)
    (mode : SampleRateMode) (v : PyVal) (s : RecState)
    (hv : pyToInt v = none) (hidle : s.is_recording = false) :
    startRecording env { micIndex := some v, mode := mode } s
      = startRecording env { micIndex := none, mode := mode } s ∧
    (startRecording env { micIndex := some v, mode := mode } s).1.current_device_info
      = some env.defaultDevice := by
  have heq : startRecording env { micIndex := some v, mode := mode } s
      = startRecording env { micIndex := none, mode := mode } s := by
    simp [startRecording, hv]
  refine ⟨heq, ?_⟩
  rw [heq]
  simp only [startRecording, hidle, Bool.false_eq_true, if_false,
    Option.bind_none]
  unfold openPhase
  cases mode <;> dsimp only <;> split_ifs <;> rfl

theorem C9_witness :
    pyToInt (PyVal.pyStr "not a number") = none ∧
    idleState.is_recording = false ∧
    startRecording env0
        { micIndex := some (PyVal.pyStr "not a number"),
          mode := SampleRateMode.whisper } idleState
      = startRecording env0
          { micIndex := none, mode := SampleRateMode.whisper } idleState ∧
    (startRecording env0
        { micIndex := some (PyVal.pyStr "not a number"),
          mode := SampleRateMode.whisper } idleState).1.current_device_info
      = some env0.defaultDevice :=
  ⟨by decide, rfl,
   (C9_unparseable_mic_index_uses_default env0 SampleRateMode.whisper
      (PyVal.pyStr "not a number") idleState (by decide) rfl).1,
   (C9_unparseable_mic_index_uses_default env0 SampleRateMode.whisper
      (PyVal.pyStr "not a number") idleState (by decide) rfl).2⟩

/-- C10: while recording is active the callback always appends the block
and answers with the continue signal; a failure of the volume computation
(here: `np.frombuffer` rejecting the buffer, the one fallible step) is
caught by the `except` branch, which still leaves the block appended,
emits a volume of exactly 0.0 — the clamped guarded square root of the
emitted mean-square 0 — and returns `paContinue`. -/
theorem C10_volume_failure_is_contained (s : RecState) (in_data : List Nat)
    (hrec : s.is_recording = true) (hfail : frombuffer16 in_data = none) :
    callback s in_data
      = ({ s with frames := s.frames ++ [in_data] },
         PaSignal.paContinue, some VolEmit.zero) ∧
    min 1 (max 0 (Real.sqrt ((emitMeanSquared VolEmit.zero : ℚ) : ℝ) / 32768))
      = 0 := by
  constructor
  · simp [callback, hrec, hfail]
  · norm_num [emitMeanSquared]

theorem C10_witness :
    activeState.is_recording = true ∧ frombuffer16 [0, 0, 1] = none ∧
    callback activeState [0, 0, 1]
      = ({ activeState with frames := activeState.frames ++ [[0, 0, 1]] },
         PaSignal.paContinue, some VolEmit.zero) ∧
    min 1 (max 0 (Real.sqrt ((emitMeanSquared VolEmit.zero : ℚ) : ℝ) / 32768))
      = 0 :=
  ⟨rfl, by decide,
   (C10_volume_failure_is_contained activeState [0, 0, 1] rfl (by decide)).1,
   (C10_volume_failure_is_contained activeState [0, 0, 1] rfl (by decide)).2⟩

end Blaze
